import Mathlib

/-!
Verification of the `lbo-stack` core against its specification.

The development shallowly embeds the two core engines of the repository:

* `src/modules/lbo_model.py` — the `DebtTranche` / `LBOModel` LBO cash-flow
  engine (`mkLBOModelCore`, `LBOModel.run` below), and
* `src/modules/fund_waterfall.py` — `compute_waterfall_by_year`.

Real numbers of the Python source are modelled by `ℚ`.  The IRR solver
(`numpy_financial.irr`) is a numerical root finder; every function that
records IRR values takes the solver as an explicit function parameter
(`irrFn`), so all theorems hold for an arbitrary solver.  Python exceptions
are modelled with `Except`.
-/

namespace LBOStack

/-- Kind of covenant that `LBOModel.run` can report as breached. -/
inductive CovKind
  | icr
  | ltv
  deriving DecidableEq

/-- Runtime errors of `LBOModel.run`: `CovenantBreachError`, `InsolvencyError`,
and the `KeyError` CPython raises when the exit year is absent from results. -/
inductive RunError
  | covenantBreach (kind : CovKind) (year : ℕ)
  | insolvency (year : ℕ) (tranche : String)
  | keyError (year : ℕ)
  deriving DecidableEq

/-- One debt tranche, mirroring `DebtTranche.__init__` of `lbo_model.py`. -/
structure DebtTranche where
  name : String
  balance : ℚ
  rate : ℚ
  amort : Bool
  revolver : Bool
  revolver_limit : ℚ
  pik : Bool
  orig_balance : ℚ
  amort_schedule : List ℚ
  deriving DecidableEq

instance : Inhabited DebtTranche :=
  ⟨{ name := (""), balance := 0, rate := 0, amort := false, revolver := false,
     revolver_limit := 0, pik := false, orig_balance := 0, amort_schedule := [] }⟩

/-- Constructor of `DebtTranche`: `orig_balance` is fixed to the initial
balance and the amortization schedule starts empty. -/
def mkTranche (name : String) (balance rate : ℚ) (amort revolver : Bool)
    (revolver_limit : ℚ) (pik : Bool) : DebtTranche :=
  { name := name, balance := balance, rate := rate, amort := amort,
    revolver := revolver, revolver_limit := revolver_limit, pik := pik,
    orig_balance := balance, amort_schedule := [] }

/-- Embedding of `DebtTranche.charge_interest`: interest is `balance * rate`;
a PIK tranche accrues it into the balance.  The interest amount is returned
in both cases (this is what the source and its docstring do). -/
def DebtTranche.charge_interest (t : DebtTranche) : DebtTranche × ℚ :=
  let interest := t.balance * t.rate
  if t.pik then ({ t with balance := t.balance + interest }, interest)
  else (t, interest)

/-- Embedding of `DebtTranche.draw`: a non-revolver returns `0` untouched, a
revolver draws `min (revolver_limit - balance) amount`. -/
def DebtTranche.draw (t : DebtTranche) (amount : ℚ) : DebtTranche × ℚ :=
  if t.revolver = false then (t, 0)
  else
    let available := t.revolver_limit - t.balance
    let draw_amt := min available amount
    ({ t with balance := t.balance + draw_amt }, draw_amt)

/-- Total debt: the sum of all tranche balances (`sum(t.debt for t in ...)`). -/
def totalDebt (ts : List DebtTranche) : ℚ :=
  (ts.map (fun t => t.balance)).sum

/-- Charge interest on every tranche in order, returning the updated tranches
and the summed interest (`sum(t.charge_interest() for t in ...)`). -/
def chargeAll : List DebtTranche → List DebtTranche × ℚ
  | [] => ([], 0)
  | t :: ts =>
    let p := t.charge_interest
    let q := chargeAll ts
    (p.1 :: q.1, p.2 + q.2)

/-- Constructor arguments of `LBOModel.__init__` (see `lbo_model.py`). -/
structure LBOConfig where
  enterprise_value : ℚ
  debt_pct : ℚ
  revenue : ℚ
  rev_growth : ℚ
  ebitda_margin : ℚ
  capex_pct : ℚ
  wc_pct : ℚ
  tax_rate : ℚ
  exit_multiple : ℚ
  interest_rate : ℚ
  revolver_limit : ℚ
  revolver_rate : ℚ
  pik_rate : ℚ
  bullet_frac : ℚ
  amort_frac : ℚ
  ltv_hurdle : Option ℚ
  icr_hurdle : Option ℚ
  da_pct : ℚ
  cash_sweep_pct : ℚ
  sale_cost_pct : ℚ
  deriving DecidableEq

/-- The state built by `LBOModel.__init__`: configuration, initial equity and
the list of debt tranches in declaration order. -/
structure LBOModel where
  cfg : LBOConfig
  equity : ℚ
  debt_tranches : List DebtTranche
  deriving DecidableEq

/-- Body of `LBOModel.__init__` (after the `bullet_frac + amort_frac ≤ 1`
validation): builds equity and the Bullet / Amortizing / optional Revolver
tranches in declaration order. -/
def mkLBOModelCore (c : LBOConfig) : LBOModel :=
  let total_debt := c.enterprise_value * c.debt_pct
  let bullet_amt := total_debt * c.bullet_frac
  let amort_amt := total_debt * c.amort_frac
  let bullet := mkTranche ("Bullet") bullet_amt
    (if c.pik_rate > 0 then c.pik_rate else c.interest_rate) false false 0
    (decide (c.pik_rate > 0))
  let amortT := mkTranche ("Amortizing") amort_amt c.interest_rate true false 0 false
  let base := [bullet, amortT]
  let tranches :=
    if c.revolver_limit > 0 then
      base ++ [mkTranche ("Revolver") 0 c.revolver_rate false true c.revolver_limit false]
    else base
  { cfg := c, equity := c.enterprise_value - total_debt, debt_tranches := tranches }

/-- Embedding of `LBOModel.__init__`, including the `ValueError` raised when
`bullet_frac + amort_frac > 1.0`. -/
def mkLBOModel (c : LBOConfig) : Except String LBOModel :=
  if c.bullet_frac + c.amort_frac > 1 then
    Except.error ("bullet_frac + amort_frac must be at most 1.0")
  else Except.ok (mkLBOModelCore c)

/-- ICR covenant trigger of `LBOModel.run` step 3: Python's
`if self.icr_hurdle and total_interest > 0` treats both `None` and `0.0`
as falsy, then breaches when `ebitda / total_interest < icr_hurdle`. -/
def icrBreach (icr_hurdle : Option ℚ) (ebitda total_interest : ℚ) : Bool :=
  match icr_hurdle with
  | none => false
  | some h => decide (h ≠ 0) && decide (0 < total_interest)
      && decide (ebitda / total_interest < h)

/-- Covenant checks of `LBOModel.run` step 3, performed on the tranches after
interest has been charged.  When `ltv_hurdle` is set (any value, including
`0.0`), the code compares `total_debt` against `ebitda * exit_multiple`; the
hurdle value itself does not enter the comparison. -/
def covenantCheck (icr_hurdle ltv_hurdle : Option ℚ) (exit_multiple ebitda total_interest : ℚ)
    (ts : List DebtTranche) (year : ℕ) : Except RunError Unit :=
  if icrBreach icr_hurdle ebitda total_interest then
    Except.error (RunError.covenantBreach CovKind.icr year)
  else if ltv_hurdle.isSome && decide (ebitda * exit_multiple < totalDebt ts) then
    Except.error (RunError.covenantBreach CovKind.ltv year)
  else Except.ok ()

/-- Step 5 of `LBOModel.run`: give every amortizing tranche that has no
explicit schedule the straight-line default `[orig_balance / years] * years`. -/
def buildSchedules (years : ℕ) (ts : List DebtTranche) : List DebtTranche :=
  ts.map fun t =>
    if t.amort && t.amort_schedule.isEmpty then
      { t with amort_schedule := List.replicate years (t.orig_balance / (years : ℚ)) }
    else t

/-- Numeric tolerance `1e-8` used by the insolvency test of step 6. -/
def shortThreshold : ℚ := 1 / 100000000

/-- Index of the first revolver tranche (`next((x for x in ... if x.revolver), None)`). -/
def findRevolverIdx (ts : List DebtTranche) : Option ℕ :=
  ts.findIdx? (fun t => t.revolver)

/-- Step 6 of `LBOModel.run` (scheduled amortization plus revolver draw),
iterating the tranche list by index with `fuel` steps remaining.  Each
amortizing tranche pays `min remaining_cash due`; a shortfall above the
tolerance is drawn from the first revolver, and a remaining shortfall raises
`InsolvencyError`. -/
def amortLoop (year : ℕ) : ℕ → ℕ → List DebtTranche → ℚ →
    Except RunError (List DebtTranche × ℚ)
  | 0, _, ts, rc => Except.ok (ts, rc)
  | fuel + 1, i, ts, rc =>
    let t := ts.getD i default
    if t.amort && decide (year - 1 < t.amort_schedule.length) then
      let due := t.amort_schedule.getD (year - 1) 0
      let pay := min rc due
      let ts1 := ts.set i { t with balance := t.balance - pay }
      let rc1 := rc - pay
      let short := due - pay
      if short > shortThreshold then
        match findRevolverIdx ts1 with
        | some j =>
          let rv := ts1.getD j default
          let p := rv.draw short
          let ts2 := ts1.set j p.1
          let short2 := short - p.2
          if short2 > shortThreshold then Except.error (RunError.insolvency year t.name)
          else amortLoop year fuel (i + 1) ts2 rc1
        | none => Except.error (RunError.insolvency year t.name)
      else amortLoop year fuel (i + 1) ts1 rc1
    else amortLoop year fuel (i + 1) ts rc

/-- One pass of the step-7 cash sweep: pay `min sweep_left balance` into each
tranche matching `p` (by index, in declaration order), stopping as soon as
`sweep_left ≤ 0` after a payment — exactly the `for`/`break` of the source. -/
def sweepLoop (p : DebtTranche → Bool) : ℕ → ℕ → List DebtTranche → ℚ →
    List DebtTranche × ℚ
  | 0, _, ts, sl => (ts, sl)
  | fuel + 1, i, ts, sl =>
    let t := ts.getD i default
    if p t then
      let pay := min sl t.balance
      let ts1 := ts.set i { t with balance := t.balance - pay }
      let sl1 := sl - pay
      if sl1 ≤ 0 then (ts1, sl1)
      else sweepLoop p fuel (i + 1) ts1 sl1
    else sweepLoop p fuel (i + 1) ts sl

/-- Step 7 of `LBOModel.run`: the sweep allotment is `lcf * cash_sweep_pct`;
it is paid first to revolver tranches, then to non-revolver non-PIK tranches,
each pass in declaration order.  Returns the new tranches and `cash_paid`
(`total_sweep - sweep_left`). -/
def sweepPhase (cash_sweep_pct lcf : ℚ) (ts : List DebtTranche) :
    List DebtTranche × ℚ :=
  let total_sweep := lcf * cash_sweep_pct
  let p1 := sweepLoop (fun t => t.revolver) ts.length 0 ts total_sweep
  let p2 := sweepLoop (fun t => !t.revolver && !t.pik) p1.1.length 0 p1.1 p1.2
  (p2.1, total_sweep - p2.2)

/-- One `"Year n"` entry of the results dict of `LBOModel.run`. -/
structure YearRecord where
  revenue : ℚ
  ebitda : ℚ
  interest : ℚ
  tax : ℚ
  nopat : ℚ
  da : ℚ
  capex : ℚ
  wc_delta : ℚ
  levered_cf : ℚ
  equity_cf : ℚ
  total_debt : ℚ
  deriving DecidableEq

instance : Inhabited YearRecord :=
  ⟨{ revenue := 0, ebitda := 0, interest := 0, tax := 0, nopat := 0, da := 0,
     capex := 0, wc_delta := 0, levered_cf := 0, equity_cf := 0, total_debt := 0 }⟩

/-- One iteration of the year loop of `LBOModel.run` (steps 1-8).  Takes the
previous revenue and working capital and the tranche state; returns the year
record together with the new revenue, working capital, and tranches. -/
def yearStep (c : LBOConfig) (years year : ℕ) (revenue_prev wc_prev : ℚ)
    (ts : List DebtTranche) :
    Except RunError (YearRecord × ℚ × ℚ × List DebtTranche) :=
  let revenue := if year > 1 then revenue_prev * (1 + c.rev_growth) else revenue_prev
  let ebitda := revenue * c.ebitda_margin
  let ch := chargeAll ts
  let ts1 := ch.1
  let total_interest := ch.2
  match covenantCheck c.icr_hurdle c.ltv_hurdle c.exit_multiple ebitda total_interest ts1 year with
  | Except.error e => Except.error e
  | Except.ok _ =>
    let ebt := ebitda - total_interest
    let tax := max 0 (ebt * c.tax_rate)
    let nopat := ebt - tax
    let da := ebitda * c.da_pct
    let wc_curr := revenue * c.wc_pct
    let wc_delta := wc_curr - wc_prev
    let capex := revenue * c.capex_pct
    let lcf := nopat + da - capex - wc_delta
    let ts2 := buildSchedules years ts1
    match amortLoop year ts2.length 0 ts2 lcf with
    | Except.error e => Except.error e
    | Except.ok pr =>
      let sw := sweepPhase c.cash_sweep_pct lcf pr.1
      let remaining_cash := lcf - sw.2
      let yr : YearRecord :=
        { revenue := revenue, ebitda := ebitda, interest := total_interest,
          tax := tax, nopat := nopat, da := da, capex := capex,
          wc_delta := wc_delta, levered_cf := lcf, equity_cf := remaining_cash,
          total_debt := totalDebt sw.1 }
      Except.ok (yr, revenue, wc_curr, sw.1)

/-- The year loop of `LBOModel.run`, running `fuel` further years starting at
`year`, accumulating records in order. -/
def runLoop (c : LBOConfig) (years : ℕ) : ℕ → ℕ → ℚ → ℚ → List DebtTranche →
    List YearRecord → Except RunError (List YearRecord × List DebtTranche)
  | 0, _, _, _, ts, acc => Except.ok (acc.reverse, ts)
  | fuel + 1, year, revenue, wc_prev, ts, acc =>
    match yearStep c years year revenue wc_prev ts with
    | Except.error e => Except.error e
    | Except.ok r => runLoop c years fuel (year + 1) r.2.1 r.2.2.1 r.2.2.2 (r.1 :: acc)

/-- The `"Exit Summary"` entry of `LBOModel.run` (the IRR comes from the
externally supplied solver, `None` standing for a failed solve). -/
structure ExitSummary where
  exit_year : ℕ
  equity_value : ℚ
  irr : Option ℚ
  moic : ℚ
  deriving DecidableEq

instance : Inhabited ExitSummary :=
  ⟨{ exit_year := 0, equity_value := 0, irr := none, moic := 0 }⟩

/-- Full result of `LBOModel.run`: the per-year records, the exit summary, and
the tranche state left on the model object after the run. -/
structure LBOResult where
  yearRecords : List YearRecord
  exitSummary : ExitSummary
  finalTranches : List DebtTranche
  deriving DecidableEq

instance : Inhabited LBOResult :=
  ⟨{ yearRecords := [], exitSummary := default, finalTranches := [] }⟩

/-- Embedding of `LBOModel.run`.  `exitYearOpt` models the optional
`exit_year` argument (`exit_year or years` maps both `None` and `0` to
`years`); an exit year outside the simulated range is the `KeyError` CPython
raises on `results[f"Year {exit_year}"]`. -/
def LBOModel.run (m : LBOModel) (irrFn : List ℚ → Option ℚ) (years : ℕ)
    (exitYearOpt : Option ℕ) : Except RunError LBOResult :=
  let c := m.cfg
  let exit_year :=
    match exitYearOpt with
    | none => years
    | some e => if e = 0 then years else e
  match runLoop c years years 1 c.revenue (c.revenue * c.wc_pct) m.debt_tranches [] with
  | Except.error e => Except.error e
  | Except.ok pr =>
    let records := pr.1
    let tsF := pr.2
    match records.get? (exit_year - 1) with
    | none => Except.error (RunError.keyError exit_year)
    | some tvRec =>
      let terminal_value := tvRec.ebitda * c.exit_multiple * (1 - c.sale_cost_pct)
      let net_debt := totalDebt tsF
      let equity_value := terminal_value - net_debt
      let irr_cf := (-m.equity) :: (records.map (fun r => r.equity_cf) ++ [equity_value])
      let moic := if m.equity > 0 then equity_value / m.equity else 0
      Except.ok
        { yearRecords := records,
          exitSummary :=
            { exit_year := exit_year, equity_value := equity_value,
              irr := irrFn irr_cf, moic := moic },
          finalTranches := tsF }

/-- IRR solver placeholder used to instantiate witnesses: a solver that never
converges. -/
def irrNone : List ℚ → Option ℚ := fun _ => none

/-! ## Fund waterfall (`fund_waterfall.py`) -/

/-- One carry tier (`{"type": ..., "rate": ..., "carry": ...}`). -/
structure WTier where
  ttype : String
  rate : ℚ
  carry : ℚ
  deriving DecidableEq

/-- Default tier `{"type": "irr", "rate": 0.08, "carry": 0.20}`. -/
def defaultTier : WTier := { ttype := ("irr"), rate := 2 / 25, carry := 1 / 5 }

instance : Inhabited WTier := ⟨defaultTier⟩

/-- Ordering on tiers by hurdle rate, the key of the source's
`sorted(..., key=lambda t: t["rate"])`. -/
def tierLE (a b : WTier) : Prop := a.rate ≤ b.rate

instance : DecidableRel tierLE := fun a b => inferInstanceAs (Decidable (a.rate ≤ b.rate))

instance : IsTotal WTier tierLE := ⟨fun a b => le_total a.rate b.rate⟩

instance : IsTrans WTier tierLE := ⟨fun _ _ _ h1 h2 => le_trans h1 h2⟩

/-- Embedding of `local_tiers = sorted(tiers or [default_tier], key=...)`:
Python's `or` replaces both `None` and an empty list by the default tier, and
`sorted` is a stable ascending sort by rate (insertion sort inserting the
head before later equal-rate elements is stable). -/
def localTiers (tiers : Option (List WTier)) : List WTier :=
  let base :=
    match tiers with
    | none => [defaultTier]
    | some l => if l.isEmpty then [defaultTier] else l
  List.insertionSort tierLE base

/-- One per-year record of `compute_waterfall_by_year`; the three `Option`
fields are the keys that only appear on the last year. -/
structure WRecord where
  year : ℕ
  capitalCalled : ℚ
  mgmtFee : ℚ
  grossDist : ℚ
  netDist : ℚ
  lpCalled : ℚ
  gpCalled : ℚ
  lpDistributed : ℚ
  gpPaid : ℚ
  gpAccrued : ℚ
  preFeeIRR : ℚ
  netFeesIRR : ℚ
  lpIRR : ℚ
  gpIRR : ℚ
  moic : ℚ
  gpFinalPay : Option ℚ
  clawback : Option ℚ
  gpNetAfterClawback : Option ℚ
  deriving DecidableEq

instance : Inhabited WRecord :=
  ⟨{ year := 0, capitalCalled := 0, mgmtFee := 0, grossDist := 0, netDist := 0,
     lpCalled := 0, gpCalled := 0, lpDistributed := 0, gpPaid := 0, gpAccrued := 0,
     preFeeIRR := 0, netFeesIRR := 0, lpIRR := 0, gpIRR := 0, moic := 0,
     gpFinalPay := none, clawback := none, gpNetAfterClawback := none }⟩

/-- Scalar arguments of `compute_waterfall_by_year` (the tier list and the IRR
solver are passed separately). -/
structure WParams where
  committed_capital : ℚ
  capital_calls : List ℚ
  distributions : List ℚ
  gp_commitment : ℚ
  mgmt_fee_pct : ℚ
  mgmt_fee_basis : String
  reset_hurdle : Bool
  cashless : Bool
  clawback_interest : String
  deriving DecidableEq

/-- Accumulators of the waterfall year loop. -/
structure WState where
  total_drawn : ℚ
  lp_called : ℚ
  gp_called : ℚ
  lp_distributed : ℚ
  gp_paid : ℚ
  gp_accrued : ℚ
  gp_entitlement : ℚ
  pre_fee_cf : List ℚ
  netfee_cf : List ℚ
  lp_cf : List ℚ
  gp_cf : List ℚ
  results : List WRecord

/-- Initial accumulator state of `compute_waterfall_by_year`. -/
def initWState : WState :=
  { total_drawn := 0, lp_called := 0, gp_called := 0, lp_distributed := 0,
    gp_paid := 0, gp_accrued := 0, gp_entitlement := 0,
    pre_fee_cf := [], netfee_cf := [], lp_cf := [], gp_cf := [], results := [] }

/-- State of the step-8 tier loop. -/
structure TierAcc where
  gp_share : ℚ
  remaining : ℚ
  gp_accrued : ℚ
  gp_entitlement : ℚ
  netfee_cf : List ℚ

/-- One non-breaking iteration of the step-8 tier loop: the allocation is
`min remaining (max 0 (profit * carry - (gp_accrued + gp_paid)))` with
`profit = max 0 (total distributed so far - total called)`, and
`reset_hurdle` clears the net-fee cash-flow list. -/
def tierStep (lp_distributed lp_share gp_paid lp_called gp_called : ℚ)
    (reset_hurdle : Bool) (tier : WTier) (s : TierAcc) : TierAcc :=
  let total_dist := lp_distributed + lp_share + gp_paid + s.gp_accrued + s.remaining
  let profit := max 0 (total_dist - (lp_called + gp_called))
  let target := profit * tier.carry
  let need := max 0 (target - (s.gp_accrued + gp_paid))
  let alloc := min s.remaining need
  { gp_share := s.gp_share + alloc, remaining := s.remaining - alloc,
    gp_accrued := s.gp_accrued + alloc,
    gp_entitlement := s.gp_entitlement + alloc,
    netfee_cf := if reset_hurdle then [] else s.netfee_cf }

/-- Step 8 of `compute_waterfall_by_year`: the carry allocation over the
sorted tiers.  A `"simple"` tier whose multiple hurdle
`sum(distributions[:year]) / total_drawn < rate` fails breaks out of the
loop (in `ℚ`, division by a zero `total_drawn` yields `0` where CPython
would raise `ZeroDivisionError`). -/
def tierLoop (distributions : List ℚ) (year : ℕ)
    (total_drawn lp_distributed lp_share gp_paid lp_called gp_called : ℚ)
    (reset_hurdle : Bool) : List WTier → TierAcc → TierAcc
  | [], s => s
  | tier :: rest, s =>
    if tier.ttype = ("simple")
        && decide ((distributions.take year).sum / total_drawn < tier.rate) then s
    else
      tierLoop distributions year total_drawn lp_distributed lp_share gp_paid
        lp_called gp_called reset_hurdle rest
        (tierStep lp_distributed lp_share gp_paid lp_called gp_called
          reset_hurdle tier s)

/-- The management fee of a year (`fee_base * mgmt_fee_pct`, the base chosen
by `mgmt_fee_basis`). -/
def wFee (p : WParams) (total_drawn : ℚ) : ℚ :=
  (if p.mgmt_fee_basis = ("committed") then p.committed_capital else total_drawn)
    * p.mgmt_fee_pct

/-- The net distribution of a year: `max 0 (dist - fee)` with the fee taken
on the cumulative drawn capital including this year's call. -/
def wNetDist (p : WParams) (st : WState) (call dist : ℚ) : ℚ :=
  max 0 (dist - wFee p (st.total_drawn + call))

/-- Step 5 (paid-in capital gate): the return-of-capital portion of the
year's net distribution. -/
def wMakeup (lp_distributed lp_called net_dist : ℚ) : ℚ :=
  if lp_distributed < lp_called then min net_dist (lp_called - lp_distributed) else 0

/-- The return-of-capital portion of a year in terms of the loop state. -/
def wMakeupOf (p : WParams) (st : WState) (call dist : ℚ) : ℚ :=
  wMakeup st.lp_distributed (st.lp_called + call * (1 - p.gp_commitment))
    (wNetDist p st call dist)

/-- The tier-loop result of a year: carry allocation over the sorted tiers
starting from the net distribution minus the return-of-capital makeup. -/
def wAlloc (p : WParams) (lt : List WTier) (st : WState) (year : ℕ)
    (call dist : ℚ) : TierAcc :=
  tierLoop p.distributions year (st.total_drawn + call) st.lp_distributed
    (wMakeupOf p st call dist) st.gp_paid
    (st.lp_called + call * (1 - p.gp_commitment))
    (st.gp_called + call * p.gp_commitment) p.reset_hurdle lt
    { gp_share := 0, remaining := wNetDist p st call dist - wMakeupOf p st call dist,
      gp_accrued := st.gp_accrued, gp_entitlement := st.gp_entitlement,
      netfee_cf := st.netfee_cf ++ [-call] }

/-- One iteration (steps 1-12) of the year loop of
`compute_waterfall_by_year` for the pair `(call, dist)` of year `year`. -/
def wStep (p : WParams) (irrFn : List ℚ → ℚ) (lt : List WTier) (st : WState)
    (year : ℕ) (call dist : ℚ) : WState :=
  let lp_part := call * (1 - p.gp_commitment)
  let gp_part := call * p.gp_commitment
  let total_drawn := st.total_drawn + call
  let lp_called := st.lp_called + lp_part
  let gp_called := st.gp_called + gp_part
  let fee := wFee p total_drawn
  let lp_cf0 := st.lp_cf ++ [-lp_part - fee]
  let gp_cf0 := st.gp_cf ++ [-gp_part]
  let net_dist := wNetDist p st call dist
  let makeup := wMakeupOf p st call dist
  let pre_fee_cf1 := st.pre_fee_cf ++ [-call] ++ [dist]
  let pre_fee_irr := irrFn pre_fee_cf1
  let acc := wAlloc p lt st year call dist
  let lp_share := makeup + acc.remaining
  let lp_distributed := st.lp_distributed + lp_share
  let netfee_cf1 := acc.netfee_cf ++ [lp_share + acc.gp_share]
  let lp_cf1 := lp_cf0 ++ [lp_share]
  let gp_cf1 := gp_cf0 ++ [if p.cashless then -acc.gp_share else acc.gp_share]
  let gp_paid := if p.cashless then st.gp_paid else st.gp_paid + acc.gp_share
  let r : WRecord :=
    { year := year, capitalCalled := call, mgmtFee := fee, grossDist := dist,
      netDist := net_dist, lpCalled := lp_part, gpCalled := gp_part,
      lpDistributed := lp_share,
      gpPaid := if p.cashless then 0 else acc.gp_share,
      gpAccrued := acc.gp_accrued,
      preFeeIRR := pre_fee_irr, netFeesIRR := irrFn netfee_cf1,
      lpIRR := irrFn lp_cf1, gpIRR := irrFn gp_cf1,
      moic := if lp_called ≠ 0 then lp_distributed / lp_called else 0,
      gpFinalPay := none, clawback := none, gpNetAfterClawback := none }
  { total_drawn := total_drawn, lp_called := lp_called, gp_called := gp_called,
    lp_distributed := lp_distributed, gp_paid := gp_paid,
    gp_accrued := acc.gp_accrued, gp_entitlement := acc.gp_entitlement,
    pre_fee_cf := pre_fee_cf1, netfee_cf := netfee_cf1, lp_cf := lp_cf1,
    gp_cf := gp_cf1, results := st.results ++ [r] }

/-- The year loop over `zip(capital_calls, distributions)` starting at year 1. -/
def wLoopAux (p : WParams) (irrFn : List ℚ → ℚ) (lt : List WTier) :
    List (ℚ × ℚ) → ℕ → WState → WState
  | [], _, st => st
  | pair :: rest, year, st =>
    wLoopAux p irrFn lt rest (year + 1) (wStep p irrFn lt st year pair.1 pair.2)

/-- Accumulator state after all years of `compute_waterfall_by_year`. -/
def waterfallLoop (p : WParams) (tiers : Option (List WTier))
    (irrFn : List ℚ → ℚ) : WState :=
  wLoopAux p irrFn (localTiers tiers) (p.capital_calls.zip p.distributions) 1 initWState

/-- Rewrite the last element of a list (Python's `results[-1]` updates); the
empty case corresponds to the `IndexError` CPython would raise and is a
no-op here, see `compute_waterfall_by_year`. -/
def updateLast (f : WRecord → WRecord) : List WRecord → List WRecord
  | [] => []
  | [r] => [f r]
  | r :: s :: rest => r :: updateLast f (s :: rest)

/-- Embedding of `compute_waterfall_by_year` (steps 13 and 14 on top of the
year loop): the final cashless payout releases `gp_accrued` as
`GP Final Pay`, then the clawback step computes
`excess = gp_paid - gp_entitlement` when any carry was allocated, else
`max 0 (gp_paid - final_ent)` with
`final_ent = (sum distributions - total_drawn) * last_tier.carry`, and on a
positive excess charges `excess * (1 + last_tier.rate * years)` when
`clawback_interest = "simple"`.  On an excess with an empty result list
CPython raises `IndexError`; here `updateLast` leaves the empty list
unchanged. -/
def postCashless (p : WParams) (irrFn : List ℚ → ℚ) (st0 : WState) : WState :=
  if p.cashless && decide (0 < st0.gp_accrued) then
    let gp_cf := st0.gp_cf ++ [st0.gp_accrued]
    { st0 with
      gp_cf := gp_cf
      gp_paid := st0.gp_paid + st0.gp_accrued
      results := updateLast (fun r =>
        { r with
          gpFinalPay := some st0.gp_accrued
          gpIRR := irrFn gp_cf
          netFeesIRR := irrFn st0.netfee_cf
          lpIRR := irrFn st0.lp_cf
          moic := if st0.lp_called ≠ 0 then st0.lp_distributed / st0.lp_called else 0 })
        st0.results }
  else st0

/-- Embedding of `compute_waterfall_by_year` (step 14 on top of the year loop
and the final cashless payout): the clawback step computes
`excess = gp_paid - gp_entitlement` when any carry was allocated, else
`max 0 (gp_paid - final_ent)` with
`final_ent = (sum distributions - total_drawn) * last_tier.carry`, and on a
positive excess charges `excess * (1 + last_tier.rate * years)` when
`clawback_interest = "simple"`. -/
def compute_waterfall_by_year (p : WParams) (tiers : Option (List WTier))
    (irrFn : List ℚ → ℚ) : List WRecord :=
  let st1 := postCashless p irrFn (waterfallLoop p tiers irrFn)
  let lt := localTiers tiers
  let total_dist := p.distributions.sum
  let profit_final := total_dist - st1.total_drawn
  let final_ent := profit_final * (lt.getLastD defaultTier).carry
  let excess :=
    if 0 < st1.gp_entitlement then st1.gp_paid - st1.gp_entitlement
    else max 0 (st1.gp_paid - final_ent)
  if 0 < excess then
    let rate := (lt.getLastD defaultTier).rate
    let claw :=
      if p.clawback_interest = ("simple") then
        excess * (1 + rate * (st1.results.length : ℚ))
      else excess
    let gp_cf := st1.gp_cf ++ [-claw]
    let lp_cf := st1.lp_cf ++ [claw]
    updateLast (fun r =>
      { r with
        clawback := some claw
        gpNetAfterClawback := some (st1.gp_paid - claw)
        gpIRR := irrFn gp_cf
        netFeesIRR := irrFn (st1.netfee_cf ++ [0])
        lpIRR := irrFn lp_cf
        moic := if st1.lp_called ≠ 0 then st1.lp_distributed / st1.lp_called else 0 })
      st1.results
  else st1.results

/-- IRR solver placeholder for waterfall witnesses (the source's `irr` helper
returns a float, NaN on failure; any fixed function instantiates it). -/
def irrZeroQ : List ℚ → ℚ := fun _ => 0

/-- Invariant of the waterfall year loop: the accrued carry always equals the
accumulated entitlement and is nonnegative, `gp_paid` is `0` under cashless
deferral and the entitlement otherwise, no in-loop record carries a clawback
annotation, and (without cashless deferral) every record conserves value:
`LP Distributed + GP Paid = Net Dist`. -/
def WInv (p : WParams) (st : WState) : Prop :=
  st.gp_accrued = st.gp_entitlement ∧
  0 ≤ st.gp_entitlement ∧
  st.gp_paid = (if p.cashless then 0 else st.gp_entitlement) ∧
  (∀ r ∈ st.results, r.clawback = none) ∧
  (p.cashless = false → ∀ r ∈ st.results, r.lpDistributed + r.gpPaid = r.netDist)

/-! ## Concrete scenarios used by the claims -/

/-- PIK-only scenario of the spec's testable properties (and of
`tests/test_core.py::test_pik_interest_accrual_and_cash_sweep`). -/
def cfgC8 : LBOConfig :=
  { enterprise_value := 100, debt_pct := 1/2, revenue := 50, rev_growth := 0,
    ebitda_margin := 1/5, capex_pct := 0, wc_pct := 0, tax_rate := 0,
    exit_multiple := 5, interest_rate := 1/10, revolver_limit := 0,
    revolver_rate := 0, pik_rate := 1/20, bullet_frac := 1, amort_frac := 0,
    ltv_hurdle := none, icr_hurdle := none, da_pct := 0, cash_sweep_pct := 1,
    sale_cost_pct := 0 }

/-- Scenario for the leverage covenant: year-1 leverage `total_debt/EBITDA`
is `50/10 = 5`, below the configured hurdle `6`, while
`EBITDA * exit_multiple = 20` is far below the `50` of debt. -/
def cfgC1 : LBOConfig :=
  { cfgC8 with
    pik_rate := 0
    interest_rate := 0
    exit_multiple := 2
    ltv_hurdle := some 6 }

/-- Scenario for the cash sweep: one year, EBITDA `30`, interest `5`
(`lcf = 25`), mandatory amortization `10`, `cash_sweep_pct = 1/2`. -/
def cfgC3 : LBOConfig :=
  { cfgC8 with
    pik_rate := 0
    ebitda_margin := 3/5
    bullet_frac := 4/5
    amort_frac := 1/5
    cash_sweep_pct := 1/2 }

/-- Scenario for the balance invariants: levered cash flow is `-10`, so the
sweep allotment is negative and the revolver (limit `15`) is pushed to `20`. -/
def cfgC6 : LBOConfig :=
  { cfgC8 with
    pik_rate := 0
    ebitda_margin := 1/10
    revenue := 10
    interest_rate := 11/50
    exit_multiple := 1
    revolver_limit := 15 }

/-- Valid configuration with `bullet_frac + amort_frac = 0.8 < 1`. -/
def cfgC7 : LBOConfig :=
  { cfgC8 with
    bullet_frac := 1/2
    amort_frac := 3/10 }

/-- Cashless waterfall scenario of
`tests/test_fund_waterfall.py::test_waterfall_cashless_and_final_payout_and_clawback`:
calls `[50, 50]`, distributions `[200, 0]`, one `100%`-carry tier. -/
def pC4 : WParams :=
  { committed_capital := 100, capital_calls := [50, 50], distributions := [200, 0],
    gp_commitment := 0, mgmt_fee_pct := 0, mgmt_fee_basis := ("committed"),
    reset_hurdle := false, cashless := true, clawback_interest := ("simple") }

/-- The single full-carry tier of the cashless scenario. -/
def tC4 : List WTier := [{ ttype := ("irr"), rate := 0, carry := 1 }]

/-- Loss-making waterfall scenario: one call of `5`, one distribution of `3`,
no carry is ever allocated. -/
def pC5loss : WParams :=
  { committed_capital := 0, capital_calls := [5], distributions := [3],
    gp_commitment := 0, mgmt_fee_pct := 0, mgmt_fee_basis := ("committed"),
    reset_hurdle := false, cashless := false, clawback_interest := ("simple") }

/-- The tier list of the loss-making scenario. -/
def tC5loss : List WTier := [{ ttype := ("irr"), rate := 1/10, carry := 1/5 }]

/-- Simple single-year waterfall with zero carry (the spec's no-carry
testable property). -/
def pNoCarry : WParams :=
  { committed_capital := 100, capital_calls := [100], distributions := [120],
    gp_commitment := 1/50, mgmt_fee_pct := 0, mgmt_fee_basis := ("committed"),
    reset_hurdle := false, cashless := false, clawback_interest := ("simple") }

/-- The zero-carry tier list. -/
def tNoCarry : List WTier := [{ ttype := ("irr"), rate := 0, carry := 0 }]

/-- A low-rate tier for permutation scenarios. -/
def tierLow : WTier := { ttype := ("irr"), rate := 1/10, carry := 1/10 }

/-- A high-rate tier for permutation scenarios. -/
def tierHigh : WTier := { ttype := ("irr"), rate := 1/5, carry := 1/4 }

end LBOStack

deriving instance DecidableEq for Except

namespace LBOStack

/-! ## Claims -/

/-- Claim C1, counterexample.  The claim says a `CovenantBreach` is raised in
a year exactly when `total_debt/EBITDA` exceeds the configured leverage
hurdle (and not by comparing debt with `EBITDA * exit_multiple`).  In
`cfgC1`, year-1 leverage is `5 ≤ 6` (no tranche is PIK and its rates are
`0`, so the debt at the covenant check equals the initial `50` while EBITDA
is `10`), yet the run raises a leverage breach in year 1 because
`50 > EBITDA * exit_multiple = 20`. -/
theorem c1_counterexample :
    cfgC1.ltv_hurdle = some 6 ∧
    (mkLBOModelCore cfgC1).run irrNone 1 none
      = Except.error (RunError.covenantBreach CovKind.ltv 1) ∧
    totalDebt (mkLBOModelCore cfgC1).debt_tranches
      / (cfgC1.revenue * cfgC1.ebitda_margin) = 5 ∧
    ¬ ((5 : ℚ) > 6) := by
  refine ⟨rfl, ?_, by norm_num [cfgC1, cfgC8, mkLBOModelCore, mkTranche, totalDebt], by norm_num⟩
  norm_num [cfgC1, cfgC8, mkLBOModelCore, mkTranche, LBOModel.run, runLoop, yearStep,
    chargeAll, DebtTranche.charge_interest, covenantCheck, icrBreach, totalDebt]

/-- Claim C2, counterexample.  The claim says `charge_interest` returns `0`
as the cash cost for a PIK tranche; on a PIK tranche with balance `100` and
rate `1/10` the source returns the full interest `10` (while also accruing
it into the balance). -/
theorem c2_counterexample :
    (mkTranche ("Mezz") 100 (1/10) false false 0 true).pik = true ∧
    (mkTranche ("Mezz") 100 (1/10) false false 0 true).charge_interest.2 = 10 ∧
    (mkTranche ("Mezz") 100 (1/10) false false 0 true).charge_interest.1.balance = 110 ∧
    ((10 : ℚ) ≠ 0) := by
  norm_num [mkTranche, DebtTranche.charge_interest]

/-- Claim C2, amended: `charge_interest` computes `interest = balance * rate`,
adds it to the balance exactly when the tranche is PIK, leaves every other
field unchanged, and returns the interest amount as its result in both cases
(not `0` for PIK tranches). -/
theorem c2_theorem (t : DebtTranche) :
    t.charge_interest.2 = t.balance * t.rate ∧
    t.charge_interest.1.balance
      = (if t.pik then t.balance + t.balance * t.rate else t.balance) ∧
    t.charge_interest.1.name = t.name ∧
    t.charge_interest.1.rate = t.rate ∧
    t.charge_interest.1.amort = t.amort ∧
    t.charge_interest.1.revolver = t.revolver ∧
    t.charge_interest.1.revolver_limit = t.revolver_limit ∧
    t.charge_interest.1.pik = t.pik ∧
    t.charge_interest.1.orig_balance = t.orig_balance ∧
    t.charge_interest.1.amort_schedule = t.amort_schedule := by
  unfold DebtTranche.charge_interest
  by_cases h : t.pik <;> simp [h]

/-- Claim C8: the PIK-only scenario (EV `100`, 50% debt, all-bullet PIK at
`5%`, EBITDA `10`, full sweep) runs for one year and records
`Equity CF = 7.5`. -/
theorem c8_theorem :
    mkLBOModel cfgC8 = Except.ok (mkLBOModelCore cfgC8) ∧
    ((mkLBOModelCore cfgC8).run irrNone 1 none).toOption.isSome = true ∧
    ((((mkLBOModelCore cfgC8).run irrNone 1 none).toOption.getD
        default).yearRecords.getD 0 default).equity_cf = 15/2 := by
  norm_num [cfgC8, mkLBOModel, mkLBOModelCore, mkTranche, LBOModel.run, runLoop, yearStep,
    chargeAll, DebtTranche.charge_interest, covenantCheck, icrBreach, buildSchedules,
    amortLoop, findRevolverIdx, sweepPhase, sweepLoop, shortThreshold, totalDebt, irrNone,
    Except.toOption, Option.getD, List.getD]

/-- Claim C10: `draw` on a non-revolver tranche returns `0` and changes
nothing. -/
theorem c10_theorem (t : DebtTranche) (amount : ℚ) (h : t.revolver = false) :
    t.draw amount = (t, 0) := by
  unfold DebtTranche.draw
  simp [h]

/-- Witness for C10 at a concrete bullet tranche and amount `7`. -/
theorem c10_witness :
    (mkTranche ("Bullet") 50 (1/10) false false 0 false).draw 7
      = (mkTranche ("Bullet") 50 (1/10) false false 0 false, 0) :=
  c10_theorem (mkTranche ("Bullet") 50 (1/10) false false 0 false) 7 rfl

/-- Claim C3, counterexample.  The claim says the sweep allotment is
`(cash after mandatory debt service) * cash_sweep_pct` and that
`Equity CF = levered CF - mandatory amortization - amount swept`.  In
`cfgC3` the year has levered CF `25`, mandatory amortization `10` (the
amortizing tranche starts at `10`, is fully repaid by the schedule, and the
sweep is absorbed by the bullet, final balance `55/2 = 40 - 25/2`), so the
claim predicts `Equity CF = 25 - 10 - (25 - 10) * (1/2) = 7.5`, but the
recorded `Equity CF` is `25 - 25 * (1/2) = 12.5`. -/
theorem c3_counterexample :
    ((mkLBOModelCore cfgC3).run irrNone 1 none).toOption.isSome = true ∧
    ((((mkLBOModelCore cfgC3).run irrNone 1 none).toOption.getD
        default).yearRecords.getD 0 default).levered_cf = 25 ∧
    ((((mkLBOModelCore cfgC3).run irrNone 1 none).toOption.getD
        default).yearRecords.getD 0 default).equity_cf = 25/2 ∧
    ((mkLBOModelCore cfgC3).debt_tranches.getD 1 default).balance = 10 ∧
    ((((mkLBOModelCore cfgC3).run irrNone 1 none).toOption.getD
        default).finalTranches.getD 1 default).balance = 0 ∧
    ((((mkLBOModelCore cfgC3).run irrNone 1 none).toOption.getD
        default).finalTranches.getD 0 default).balance = 55/2 ∧
    ¬ ((25 : ℚ)/2 = 25 - 10 - (25 - 10) * cfgC3.cash_sweep_pct) := by
  norm_num [cfgC3, cfgC8, mkLBOModel, mkLBOModelCore, mkTranche, LBOModel.run, runLoop,
    yearStep, chargeAll, DebtTranche.charge_interest, covenantCheck, icrBreach,
    buildSchedules, amortLoop, findRevolverIdx, sweepPhase, sweepLoop, shortThreshold,
    totalDebt, irrNone, Except.toOption, Option.getD, List.getD]

/-- Claim C6, counterexample.  The claim says no tranche balance is ever
negative and the revolver never exceeds its limit.  In `cfgC6` the levered
cash flow is `-10`; the negative sweep allotment is "paid" to the revolver
as a negative amount, raising its balance from `10` (after the draw that
covered the amortization shortfall) to `20`, above its limit of `15` — and
the run completes without error with that final state. -/
theorem c6_counterexample :
    ((mkLBOModelCore cfgC6).run irrNone 1 none).toOption.isSome = true ∧
    ((((mkLBOModelCore cfgC6).run irrNone 1 none).toOption.getD
        default).finalTranches.getD 2 default).revolver = true ∧
    ((((mkLBOModelCore cfgC6).run irrNone 1 none).toOption.getD
        default).finalTranches.getD 2 default).revolver_limit = 15 ∧
    ((((mkLBOModelCore cfgC6).run irrNone 1 none).toOption.getD
        default).finalTranches.getD 2 default).balance = 20 ∧
    ¬ ((20 : ℚ) ≤ 15) := by
  norm_num [cfgC6, cfgC8, mkLBOModel, mkLBOModelCore, mkTranche, LBOModel.run, runLoop,
    yearStep, chargeAll, DebtTranche.charge_interest, covenantCheck, icrBreach,
    buildSchedules, amortLoop, findRevolverIdx, DebtTranche.draw, sweepPhase, sweepLoop,
    shortThreshold, totalDebt, irrNone, Except.toOption, Option.getD, List.getD]

/-- Claim C4, counterexample.  With cashless deferral enabled (the setting the
claim explicitly includes), year 1 of the `pC4` scenario records
`Net Dist = 200` but `LP Distributed = 50` and `GP Paid = 0` with no
`GP Final Pay` key (year 1 is not the last year): the per-year conservation
equation fails because the deferred carry of `150` only appears in the last
year's `GP Final Pay`. -/
theorem c4_counterexample :
    ((compute_waterfall_by_year pC4 (some tC4) irrZeroQ).getD 0 default).netDist = 200 ∧
    ((compute_waterfall_by_year pC4 (some tC4) irrZeroQ).getD 0 default).lpDistributed = 50 ∧
    ((compute_waterfall_by_year pC4 (some tC4) irrZeroQ).getD 0 default).gpPaid = 0 ∧
    ((compute_waterfall_by_year pC4 (some tC4) irrZeroQ).getD 0 default).gpFinalPay = none ∧
    ¬ ((50 : ℚ) + 0 = 200) := by
  norm_num [pC4, tC4, compute_waterfall_by_year, postCashless, waterfallLoop, wLoopAux,
    wStep, wAlloc, wMakeupOf, wMakeup, wNetDist, wFee, tierLoop, tierStep,
    localTiers, defaultTier, initWState, updateLast, irrZeroQ, tierLE,
    List.insertionSort, List.orderedInsert, List.getD, List.getLastD]

/-- Claim C5, counterexample.  In the `pC4` scenario the cumulative GP carry
after the final payout is `150`, above the claimed final entitlement
`(sum of distributions - sum of calls) * final carry = 100`, yet no clawback
is recorded: the source compares `gp_paid` with its own running
`gp_entitlement` accumulator (always equal to it), not with
`final profit * carry` (the repository's own waterfall test pins this
no-clawback outcome). -/
theorem c5_counterexample :
    (((compute_waterfall_by_year pC4 (some tC4) irrZeroQ).map
        (fun r => r.gpPaid)).sum
      + ((compute_waterfall_by_year pC4 (some tC4) irrZeroQ).getLastD
          default).gpFinalPay.getD 0 = 150) ∧
    (pC4.distributions.sum - pC4.capital_calls.sum)
      * (tC4.getLastD defaultTier).carry = 100 ∧
    ((150 : ℚ) > 100) ∧
    ((compute_waterfall_by_year pC4 (some tC4) irrZeroQ).getLastD
        default).clawback = none := by
  norm_num [pC4, tC4, compute_waterfall_by_year, postCashless, waterfallLoop, wLoopAux,
    wStep, wAlloc, wMakeupOf, wMakeup, wNetDist, wFee, tierLoop, tierStep,
    localTiers, defaultTier, initWState, updateLast, irrZeroQ, tierLE,
    List.insertionSort, List.orderedInsert, List.getD, List.getLastD]

/-- Claim C7, counterexample.  `cfgC7` is a valid configuration
(`bullet_frac + amort_frac = 0.8 ≤ 1`), but the initial tranche balances sum
to `40` while `enterprise_value * debt_pct = 50`: the claimed equality
`total_debt = bullet + amortizing` fails. -/
theorem c7_counterexample :
    cfgC7.bullet_frac + cfgC7.amort_frac ≤ 1 ∧
    mkLBOModel cfgC7 = Except.ok (mkLBOModelCore cfgC7) ∧
    totalDebt (mkLBOModelCore cfgC7).debt_tranches = 40 ∧
    cfgC7.enterprise_value * cfgC7.debt_pct = 50 ∧
    ((40 : ℚ) ≠ 50) := by
  norm_num [cfgC7, cfgC8, mkLBOModel, mkLBOModelCore, mkTranche, totalDebt]

/-- Claim C7, amended: for every valid configuration the initial equity is
`enterprise_value - enterprise_value * debt_pct`, and the initial tranche
balances sum to `enterprise_value * debt_pct` exactly when
`bullet_frac + amort_frac = 1` (the constructor only validates `≤ 1`, and
the two sized tranches receive `total_debt * frac` each). -/
theorem c7_theorem (c : LBOConfig) (h : c.bullet_frac + c.amort_frac ≤ 1) :
    (mkLBOModelCore c).equity = c.enterprise_value - c.enterprise_value * c.debt_pct ∧
    (c.bullet_frac + c.amort_frac = 1 →
      totalDebt (mkLBOModelCore c).debt_tranches = c.enterprise_value * c.debt_pct) := by
  refine ⟨rfl, fun h1 => ?_⟩
  have h2 : c.enterprise_value * c.debt_pct * c.bullet_frac
      + c.enterprise_value * c.debt_pct * c.amort_frac
      = c.enterprise_value * c.debt_pct := by
    rw [← mul_add, h1, mul_one]
  unfold mkLBOModelCore totalDebt mkTranche
  by_cases hr : c.revolver_limit > 0 <;> simp [hr] <;> linarith [h2]

/-- Claim C1, amended: when the leverage hurdle (`ltv_hurdle`) is configured,
the covenant step raises the leverage `CovenantBreach` for a year exactly
when total debt exceeds `EBITDA * exit_multiple` (provided the ICR check
passed first), and the configured hurdle value itself never affects the
outcome: the check behaves identically for any two hurdle values. -/
theorem c1_theorem (oi : Option ℚ) (h h' em e ti : ℚ) (ts : List DebtTranche) (y : ℕ) :
    covenantCheck oi (some h) em e ti ts y = covenantCheck oi (some h') em e ti ts y ∧
    (icrBreach oi e ti = false →
      (covenantCheck oi (some h) em e ti ts y
          = Except.error (RunError.covenantBreach CovKind.ltv y)
        ↔ e * em < totalDebt ts)) := by
  constructor
  · unfold covenantCheck
    by_cases hb : icrBreach oi e ti <;> simp [hb]
  · intro hicr
    unfold covenantCheck
    by_cases hlt : e * em < totalDebt ts <;> simp [hicr, hlt]

/-- Witness for C1 at the `cfgC1` tranches: two different hurdles (`6`, `9`)
give the same outcome, and the breach triggers because `10 * 2 < 50`. -/
theorem c1_witness :
    (covenantCheck none (some 6) 2 10 0 (mkLBOModelCore cfgC1).debt_tranches 1
      = covenantCheck none (some 9) 2 10 0 (mkLBOModelCore cfgC1).debt_tranches 1) ∧
    (covenantCheck none (some 6) 2 10 0 (mkLBOModelCore cfgC1).debt_tranches 1
        = Except.error (RunError.covenantBreach CovKind.ltv 1)
      ↔ (10 : ℚ) * 2 < totalDebt (mkLBOModelCore cfgC1).debt_tranches) :=
  ⟨(c1_theorem none 6 9 2 10 0 (mkLBOModelCore cfgC1).debt_tranches 1).1,
    (c1_theorem none 6 9 2 10 0 (mkLBOModelCore cfgC1).debt_tranches 1).2 rfl⟩

/-! ### Helper lemmas on tranche lists and the sweep -/

/-- Total debt of a cons. -/
theorem totalDebt_cons (t : DebtTranche) (ts : List DebtTranche) :
    totalDebt (t :: ts) = t.balance + totalDebt ts := by
  simp [totalDebt]

/-- Setting an in-range element changes `totalDebt` by the balance delta. -/
theorem totalDebt_set : ∀ (l : List DebtTranche) (i : ℕ) (u : DebtTranche),
    i < l.length →
    totalDebt (l.set i u) = totalDebt l - (l.getD i default).balance + u.balance := by
  intro l
  induction l with
  | nil => intro i u hi; simp at hi
  | cons a l ih =>
    intro i u hi
    cases i with
    | zero => simp [totalDebt_cons]; ring
    | succ n =>
      have hn : n < l.length := by simpa using hi
      simp [totalDebt_cons, List.getD_cons_succ, ih n u hn]
      ring

/-- An element read with `getD` is in the list or is the default. -/
theorem getD_mem_or_default : ∀ (l : List DebtTranche) (j : ℕ),
    l.getD j default ∈ l ∨ l.getD j default = default := by
  intro l
  induction l with
  | nil => intro j; right; rfl
  | cons a l ih =>
    intro j
    cases j with
    | zero =>
      left
      show a ∈ a :: l
      exact List.mem_cons_self a l
    | succ n =>
      rcases ih n with hm | hd
      · left
        show l.getD n default ∈ a :: l
        exact List.mem_cons_of_mem a hm
      · right
        show l.getD n default = default
        exact hd

/-- Reading after `set`: the new element at the set position (if in range),
the old one elsewhere. -/
theorem getD_set : ∀ (l : List DebtTranche) (i j : ℕ) (u : DebtTranche),
    (l.set i u).getD j default
      = if i = j ∧ j < l.length then u else l.getD j default := by
  intro l
  induction l with
  | nil =>
    intro i j u
    rw [if_neg (by simp)]
    rfl
  | cons a l ih =>
    intro i j u
    cases i with
    | zero =>
      cases j with
      | zero =>
        rw [if_pos (by simp)]
        rfl
      | succ n =>
        rw [if_neg (by omega)]
        rfl
    | succ m =>
      cases j with
      | zero =>
        rw [if_neg (by omega)]
        rfl
      | succ n =>
        show (l.set m u).getD n default = _
        rw [ih m n u]
        simp only [List.length_cons]
        by_cases hmn : m = n ∧ n < l.length
        · rw [if_pos hmn, if_pos (by omega)]
        · rw [if_neg hmn, if_neg (by omega)]
          rfl

/-- A sweep pass preserves the length of the tranche list. -/
theorem sweepLoop_length (p : DebtTranche → Bool) : ∀ (fuel i : ℕ)
    (ts : List DebtTranche) (sl : ℚ),
    (sweepLoop p fuel i ts sl).1.length = ts.length := by
  intro fuel
  induction fuel with
  | zero => intro i ts sl; rfl
  | succ fuel ih =>
    intro i ts sl
    simp only [sweepLoop]
    split
    · split
      · exact List.length_set ts i _
      · rw [ih]
        exact List.length_set ts i _
    · exact ih (i + 1) ts sl

/-- Cash conservation of a sweep pass: the total balance reduction equals the
reduction of the sweep allotment. -/
theorem sweepLoop_cash (p : DebtTranche → Bool) : ∀ (fuel i : ℕ)
    (ts : List DebtTranche) (sl : ℚ), fuel + i ≤ ts.length →
    totalDebt (sweepLoop p fuel i ts sl).1
      = totalDebt ts - (sl - (sweepLoop p fuel i ts sl).2) := by
  intro fuel
  induction fuel with
  | zero =>
    intro i ts sl hle
    show totalDebt ts = totalDebt ts - (sl - sl)
    ring
  | succ fuel ih =>
    intro i ts sl hle
    have hi : i < ts.length := by omega
    have hset : totalDebt (ts.set i
        { ts.getD i default with
          balance := (ts.getD i default).balance - min sl (ts.getD i default).balance })
        = totalDebt ts - min sl (ts.getD i default).balance := by
      rw [totalDebt_set ts i _ hi]
      ring
    simp only [sweepLoop]
    split
    · split
      · show totalDebt (ts.set i _) = _
        rw [hset]
        ring
      · rw [ih (i + 1) _ _ (by rw [List.length_set]; omega), hset]
        ring
    · exact ih (i + 1) ts sl (by omega)

/-- Cash conservation of the whole step-7 sweep: the cash paid equals the
total reduction in tranche balances. -/
theorem sweepPhase_cash (pct lcf : ℚ) (ts : List DebtTranche) :
    totalDebt ts - totalDebt (sweepPhase pct lcf ts).1 = (sweepPhase pct lcf ts).2 := by
  unfold sweepPhase
  have h1 := sweepLoop_cash (fun t => t.revolver) ts.length 0 ts (lcf * pct) (by omega)
  have hlen := sweepLoop_length (fun t => t.revolver) ts.length 0 ts (lcf * pct)
  have h2 := sweepLoop_cash (fun t => !t.revolver && !t.pik)
    (sweepLoop (fun t => t.revolver) ts.length 0 ts (lcf * pct)).1.length 0
    (sweepLoop (fun t => t.revolver) ts.length 0 ts (lcf * pct)).1
    (sweepLoop (fun t => t.revolver) ts.length 0 ts (lcf * pct)).2 (by omega)
  simp only []
  rw [h2, h1]
  ring

/-- Claim C3, amended: the discretionary sweep allotment of a year is
`levered CF * cash_sweep_pct` (computed before deducting the mandatory
amortization payments), the cash actually swept equals the total reduction
in tranche balances over the sweep (revolver pass first, then the
non-revolver non-PIK pass), and the recorded
`Equity CF = levered CF - cash actually swept` — the mandatory amortization
payments are not subtracted again. -/
theorem c3_theorem :
    (∀ (pct lcf : ℚ) (ts : List DebtTranche),
      (sweepPhase pct lcf ts).2
        = totalDebt ts - totalDebt (sweepPhase pct lcf ts).1) ∧
    (∀ (c : LBOConfig) (years year : ℕ) (rev wc : ℚ) (ts : List DebtTranche)
        (out : YearRecord × ℚ × ℚ × List DebtTranche)
        (pr : List DebtTranche × ℚ),
      yearStep c years year rev wc ts = Except.ok out →
      amortLoop year (buildSchedules years (chargeAll ts).1).length 0
          (buildSchedules years (chargeAll ts).1) out.1.levered_cf = Except.ok pr →
      out.1.equity_cf = out.1.levered_cf - (totalDebt pr.1 - totalDebt out.2.2.2)) := by
  constructor
  · intro pct lcf ts
    exact (sweepPhase_cash pct lcf ts).symm
  · intro c years year rev wc ts out pr h h2
    simp only [yearStep] at h
    split at h
    · exact absurd h (by simp)
    · split at h
      · exact absurd h (by simp)
      · rename_i pr' heq
        rw [Except.ok.injEq] at h
        subst h
        dsimp only at h2 ⊢
        rw [heq] at h2
        rw [Except.ok.injEq] at h2
        subst h2
        rw [sub_right_inj]
        exact (sweepPhase_cash _ _ _).symm

/-- Witness for C3's amended theorem at the `cfgC3` year: the concrete year
step succeeds and the equity identity holds there. -/
theorem c3_witness :
    (((yearStep cfgC3 1 1 50 0 (mkLBOModelCore cfgC3).debt_tranches).toOption.getD
        default).1).equity_cf
      = (((yearStep cfgC3 1 1 50 0 (mkLBOModelCore cfgC3).debt_tranches).toOption.getD
          default).1).levered_cf
        - (totalDebt ((amortLoop 1
              (buildSchedules 1 (chargeAll (mkLBOModelCore cfgC3).debt_tranches).1).length 0
              (buildSchedules 1 (chargeAll (mkLBOModelCore cfgC3).debt_tranches).1)
              (((yearStep cfgC3 1 1 50 0
                  (mkLBOModelCore cfgC3).debt_tranches).toOption.getD
                    default).1).levered_cf).toOption.getD
                ((mkLBOModelCore cfgC3).debt_tranches, 0)).1
          - totalDebt (((yearStep cfgC3 1 1 50 0
              (mkLBOModelCore cfgC3).debt_tranches).toOption.getD default).2.2.2)) :=
  c3_theorem.2 cfgC3 1 1 50 0 (mkLBOModelCore cfgC3).debt_tranches
    ((yearStep cfgC3 1 1 50 0 (mkLBOModelCore cfgC3).debt_tranches).toOption.getD default)
    ((amortLoop 1 (buildSchedules 1 (chargeAll (mkLBOModelCore cfgC3).debt_tranches).1).length
        0 (buildSchedules 1 (chargeAll (mkLBOModelCore cfgC3).debt_tranches).1)
        (((yearStep cfgC3 1 1 50 0 (mkLBOModelCore cfgC3).debt_tranches).toOption.getD
          default).1).levered_cf).toOption.getD ((mkLBOModelCore cfgC3).debt_tranches, 0))
    (by norm_num [cfgC3, cfgC8, mkLBOModelCore, mkTranche, yearStep, chargeAll,
      DebtTranche.charge_interest, covenantCheck, icrBreach, buildSchedules, amortLoop,
      findRevolverIdx, sweepPhase, sweepLoop, shortThreshold, totalDebt,
      Except.toOption, Option.getD])
    (by norm_num [cfgC3, cfgC8, mkLBOModelCore, mkTranche, yearStep, chargeAll,
      DebtTranche.charge_interest, covenantCheck, icrBreach, buildSchedules, amortLoop,
      findRevolverIdx, sweepPhase, sweepLoop, shortThreshold, totalDebt,
      Except.toOption, Option.getD])

/-- Nonnegativity and monotonicity of a sweep pass: with a nonnegative
allotment, a sweep keeps every balance nonnegative and never increases any
balance. -/
theorem sweepLoop_nonneg (p : DebtTranche → Bool) : ∀ (fuel i : ℕ)
    (ts : List DebtTranche) (sl : ℚ), 0 ≤ sl → (∀ u ∈ ts, 0 ≤ u.balance) →
    (∀ u ∈ (sweepLoop p fuel i ts sl).1, 0 ≤ u.balance) ∧
    (∀ j, ((sweepLoop p fuel i ts sl).1.getD j default).balance
      ≤ (ts.getD j default).balance) := by
  intro fuel
  induction fuel with
  | zero =>
    intro i ts sl hsl hmem
    exact ⟨hmem, fun j => le_refl _⟩
  | succ fuel ih =>
    intro i ts sl hsl hmem
    have hbal : 0 ≤ (ts.getD i default).balance := by
      rcases getD_mem_or_default ts i with hm | hd
      · exact hmem _ hm
      · rw [hd]
        show (0 : ℚ) ≤ 0
        exact le_rfl
    have hpay0 : 0 ≤ min sl (ts.getD i default).balance := le_min hsl hbal
    have hpayb : min sl (ts.getD i default).balance ≤ (ts.getD i default).balance :=
      min_le_right _ _
    have hpaysl : min sl (ts.getD i default).balance ≤ sl := min_le_left _ _
    have hmem1 : ∀ u ∈ ts.set i
        { ts.getD i default with
          balance := (ts.getD i default).balance - min sl (ts.getD i default).balance },
        0 ≤ u.balance := by
      intro u hu
      rcases List.mem_or_eq_of_mem_set hu with hm | he
      · exact hmem _ hm
      · rw [he]
        show 0 ≤ (ts.getD i default).balance - min sl (ts.getD i default).balance
        linarith
    have hgetD1 : ∀ j, ((ts.set i
        { ts.getD i default with
          balance := (ts.getD i default).balance - min sl (ts.getD i default).balance
        }).getD j default).balance ≤ (ts.getD j default).balance := by
      intro j
      rw [getD_set]
      by_cases hij : i = j ∧ j < ts.length
      · rw [if_pos hij]
        rcases hij with ⟨hij1, _⟩
        subst hij1
        show (ts.getD i default).balance - min sl (ts.getD i default).balance ≤ _
        linarith
      · rw [if_neg hij]
    simp only [sweepLoop]
    split
    · split
      · exact ⟨hmem1, hgetD1⟩
      · have hrec := ih (i + 1) _ (sl - min sl (ts.getD i default).balance)
          (by linarith) hmem1
        exact ⟨hrec.1, fun j => le_trans (hrec.2 j) (hgetD1 j)⟩
    · exact ih (i + 1) ts sl hsl hmem

/-- Claim C6, amended: the balance invariants hold for the individual phases
under nonnegative inputs — a revolver draw of a nonnegative amount keeps
`0 ≤ balance ≤ revolver_limit`, charging interest at a nonnegative rate
keeps balances nonnegative, and a sweep pass with a nonnegative allotment
keeps balances nonnegative and never raises any balance (so it cannot lift a
revolver above its limit).  The claim's unconditional run-wide invariant is
false: a negative levered cash flow makes the sweep allotment negative and
pushes balances up (see the counterexample), and scheduled amortization can
overdraw a tranche that the sweep already prepaid. -/
theorem c6_theorem :
    (∀ (t : DebtTranche) (a : ℚ), 0 ≤ a → 0 ≤ t.balance →
      t.balance ≤ t.revolver_limit →
      0 ≤ (t.draw a).1.balance ∧ (t.draw a).1.balance ≤ t.revolver_limit) ∧
    (∀ t : DebtTranche, 0 ≤ t.balance → 0 ≤ t.rate →
      0 ≤ t.charge_interest.1.balance) ∧
    (∀ (p : DebtTranche → Bool) (fuel i : ℕ) (ts : List DebtTranche) (sl : ℚ),
      0 ≤ sl → (∀ u ∈ ts, 0 ≤ u.balance) →
      (∀ u ∈ (sweepLoop p fuel i ts sl).1, 0 ≤ u.balance) ∧
      (∀ j, ((sweepLoop p fuel i ts sl).1.getD j default).balance
        ≤ (ts.getD j default).balance)) := by
  refine ⟨?_, ?_, sweepLoop_nonneg⟩
  · intro t a ha hb hl
    unfold DebtTranche.draw
    by_cases hr : t.revolver = false
    · rw [if_pos hr]
      exact ⟨hb, hl⟩
    · rw [if_neg hr]
      have h1 : 0 ≤ min (t.revolver_limit - t.balance) a := le_min (by linarith) ha
      have h2 : min (t.revolver_limit - t.balance) a ≤ t.revolver_limit - t.balance :=
        min_le_left _ _
      constructor
      · show 0 ≤ t.balance + min (t.revolver_limit - t.balance) a
        linarith
      · show t.balance + min (t.revolver_limit - t.balance) a ≤ t.revolver_limit
        linarith
  · intro t hb hr
    unfold DebtTranche.charge_interest
    by_cases hp : t.pik
    · rw [if_pos hp]
      show 0 ≤ t.balance + t.balance * t.rate
      have := mul_nonneg hb hr
      linarith
    · rw [if_neg hp]
      exact hb

/-- Witness for C6's amended theorem: a draw of `3` on a revolver at balance
`5` with limit `8`, interest charging on that revolver, and a sweep of
allotment `2` over the `cfgC8` tranches (the sweep pays the amortizing
tranche, index `1`, whose balance stays nonnegative). -/
theorem c6_witness :
    (0 ≤ ((mkTranche ("Revolver") 5 (1/20) false true 8 false).draw 3).1.balance ∧
      ((mkTranche ("Revolver") 5 (1/20) false true 8 false).draw 3).1.balance
        ≤ (mkTranche ("Revolver") 5 (1/20) false true 8 false).revolver_limit) ∧
    (0 ≤ (mkTranche ("Revolver") 5 (1/20) false true 8 false).charge_interest.1.balance) ∧
    (0 ≤ (((sweepLoop (fun t => !t.revolver && !t.pik) 2 0
        (mkLBOModelCore cfgC8).debt_tranches 2).1.getD 1 default)).balance) :=
  ⟨c6_theorem.1 (mkTranche ("Revolver") 5 (1/20) false true 8 false) 3
      (by norm_num) (by norm_num [mkTranche]) (by norm_num [mkTranche]),
    c6_theorem.2.1 (mkTranche ("Revolver") 5 (1/20) false true 8 false)
      (by norm_num [mkTranche]) (by norm_num [mkTranche]),
    (c6_theorem.2.2 (fun t => !t.revolver && !t.pik) 2 0
      (mkLBOModelCore cfgC8).debt_tranches 2 (by norm_num)
      (by
        intro u hu
        revert hu
        norm_num [cfgC8, mkLBOModelCore, mkTranche]
        rintro (h | h) <;> rw [h] <;> norm_num)).1
      _ (by norm_num [cfgC8, mkLBOModelCore, mkTranche, sweepLoop, List.getD])⟩

/-- Witness for C7 at `cfgC8` (where `bullet_frac + amort_frac = 1`). -/
theorem c7_witness :
    (mkLBOModelCore cfgC8).equity
        = cfgC8.enterprise_value - cfgC8.enterprise_value * cfgC8.debt_pct ∧
    totalDebt (mkLBOModelCore cfgC8).debt_tranches
        = cfgC8.enterprise_value * cfgC8.debt_pct :=
  ⟨(c7_theorem cfgC8 (by norm_num [cfgC8])).1,
    (c7_theorem cfgC8 (by norm_num [cfgC8])).2 (by norm_num [cfgC8])⟩

end LBOStack

namespace LBOStack

/-! ### Waterfall invariant machinery -/

/-- Field deltas of one tier-loop step: the allocation moves the same amount
from `remaining` into `gp_share`, `gp_accrued` and `gp_entitlement`, and is
between `0` and `remaining` when `remaining` is nonnegative. -/
theorem tierStep_delta (lpd lps gpp lpc gpc : ℚ) (rh : Bool) (tier : WTier)
    (s : TierAcc) :
    ∃ a : ℚ,
      (tierStep lpd lps gpp lpc gpc rh tier s).gp_share = s.gp_share + a ∧
      (tierStep lpd lps gpp lpc gpc rh tier s).remaining = s.remaining - a ∧
      (tierStep lpd lps gpp lpc gpc rh tier s).gp_accrued = s.gp_accrued + a ∧
      (tierStep lpd lps gpp lpc gpc rh tier s).gp_entitlement
        = s.gp_entitlement + a ∧
      (0 ≤ s.remaining → 0 ≤ a ∧ a ≤ s.remaining) := by
  refine ⟨min s.remaining (max 0 (max 0 (lpd + lps + gpp + s.gp_accrued + s.remaining
      - (lpc + gpc)) * tier.carry - (s.gp_accrued + gpp))), rfl, rfl, rfl, rfl, ?_⟩
  intro hr
  exact ⟨le_min hr (le_max_left _ _), min_le_left _ _⟩

/-- Field deltas of the whole tier loop. -/
theorem tierLoop_delta (ds : List ℚ) (year : ℕ) (td lpd lps gpp lpc gpc : ℚ)
    (rh : Bool) : ∀ (tiers : List WTier) (s : TierAcc),
    ∃ d : ℚ,
      (tierLoop ds year td lpd lps gpp lpc gpc rh tiers s).gp_share
        = s.gp_share + d ∧
      (tierLoop ds year td lpd lps gpp lpc gpc rh tiers s).remaining
        = s.remaining - d ∧
      (tierLoop ds year td lpd lps gpp lpc gpc rh tiers s).gp_accrued
        = s.gp_accrued + d ∧
      (tierLoop ds year td lpd lps gpp lpc gpc rh tiers s).gp_entitlement
        = s.gp_entitlement + d ∧
      (0 ≤ s.remaining → 0 ≤ d ∧ d ≤ s.remaining) := by
  intro tiers
  induction tiers with
  | nil =>
    intro s
    exact ⟨0, by simp [tierLoop], by simp [tierLoop], by simp [tierLoop],
      by simp [tierLoop], fun hr => ⟨le_rfl, hr⟩⟩
  | cons tier rest ih =>
    intro s
    simp only [tierLoop]
    split
    · exact ⟨0, by simp, by simp, by simp, by simp, fun hr => ⟨le_rfl, hr⟩⟩
    · obtain ⟨a, a1, a2, a3, a4, a5⟩ := tierStep_delta lpd lps gpp lpc gpc rh tier s
      obtain ⟨d, d1, d2, d3, d4, d5⟩ := ih (tierStep lpd lps gpp lpc gpc rh tier s)
      refine ⟨a + d, ?_, ?_, ?_, ?_, ?_⟩
      · rw [d1, a1]; ring
      · rw [d2, a2]; ring
      · rw [d3, a3]; ring
      · rw [d4, a4]; ring
      · intro hr
        obtain ⟨ha0, har⟩ := a5 hr
        have hrem : 0 ≤ (tierStep lpd lps gpp lpc gpc rh tier s).remaining := by
          rw [a2]; linarith
        obtain ⟨hd0, hdr⟩ := d5 hrem
        rw [a2] at hdr
        exact ⟨by linarith, by linarith⟩

/-- The year's net distribution is nonnegative and the return-of-capital
makeup never exceeds it. -/
theorem wNetDist_sub_makeup_nonneg (p : WParams) (st : WState) (call dist : ℚ) :
    0 ≤ wNetDist p st call dist - wMakeupOf p st call dist := by
  have h1 : (0 : ℚ) ≤ wNetDist p st call dist := le_max_left _ _
  unfold wMakeupOf wMakeup
  split
  · have := min_le_left (wNetDist p st call dist)
      (st.lp_called + call * (1 - p.gp_commitment) - st.lp_distributed)
    linarith
  · linarith

/-- Field deltas of a year's carry allocation. -/
theorem wAlloc_delta (p : WParams) (lt : List WTier) (st : WState) (year : ℕ)
    (call dist : ℚ) :
    ∃ d : ℚ,
      (wAlloc p lt st year call dist).gp_share = d ∧
      (wAlloc p lt st year call dist).remaining
        = wNetDist p st call dist - wMakeupOf p st call dist - d ∧
      (wAlloc p lt st year call dist).gp_accrued = st.gp_accrued + d ∧
      (wAlloc p lt st year call dist).gp_entitlement = st.gp_entitlement + d ∧
      0 ≤ d ∧ d ≤ wNetDist p st call dist - wMakeupOf p st call dist := by
  obtain ⟨d, d1, d2, d3, d4, d5⟩ := tierLoop_delta p.distributions year
    (st.total_drawn + call) st.lp_distributed (wMakeupOf p st call dist) st.gp_paid
    (st.lp_called + call * (1 - p.gp_commitment)) (st.gp_called + call * p.gp_commitment)
    p.reset_hurdle lt
    { gp_share := 0, remaining := wNetDist p st call dist - wMakeupOf p st call dist,
      gp_accrued := st.gp_accrued, gp_entitlement := st.gp_entitlement,
      netfee_cf := st.netfee_cf ++ [-call] }
  obtain ⟨hd0, hdr⟩ := d5 (wNetDist_sub_makeup_nonneg p st call dist)
  refine ⟨d, ?_, ?_, ?_, ?_, hd0, hdr⟩
  · simp only [wAlloc]; rw [d1]; ring
  · simp only [wAlloc]; rw [d2]
  · simp only [wAlloc]; rw [d3]
  · simp only [wAlloc]; rw [d4]

/-- The year step preserves the waterfall loop invariant. -/
theorem wStep_inv (p : WParams) (irrFn : List ℚ → ℚ) (lt : List WTier)
    (st : WState) (year : ℕ) (call dist : ℚ) (h : WInv p st) :
    WInv p (wStep p irrFn lt st year call dist) := by
  obtain ⟨h1, h2, h3, h4, h5⟩ := h
  obtain ⟨d, g1, g2, g3, g4, gd0, gdr⟩ := wAlloc_delta p lt st year call dist
  refine ⟨?_, ?_, ?_, ?_, ?_⟩
  · show (wAlloc p lt st year call dist).gp_accrued
      = (wAlloc p lt st year call dist).gp_entitlement
    rw [g3, g4, h1]
  · show 0 ≤ (wAlloc p lt st year call dist).gp_entitlement
    rw [g4]
    linarith
  · show (if p.cashless then st.gp_paid
        else st.gp_paid + (wAlloc p lt st year call dist).gp_share)
      = (if p.cashless then 0 else (wAlloc p lt st year call dist).gp_entitlement)
    by_cases hc : p.cashless
    · rw [if_pos hc, if_pos hc, h3, if_pos hc]
    · rw [if_neg hc, if_neg hc, g1, g4, h3, if_neg hc]
  · intro r hr
    show r.clawback = none
    have hr2 : r ∈ st.results ++ [_] := hr
    rcases List.mem_append.mp hr2 with hm | hm
    · exact h4 r hm
    · rw [List.mem_singleton] at hm
      subst hm
      rfl
  · intro hc r hr
    have hr2 : r ∈ st.results ++ [_] := hr
    rcases List.mem_append.mp hr2 with hm | hm
    · exact h5 hc r hm
    · rw [List.mem_singleton] at hm
      subst hm
      show (wMakeupOf p st call dist + (wAlloc p lt st year call dist).remaining)
          + (if p.cashless then 0 else (wAlloc p lt st year call dist).gp_share)
        = wNetDist p st call dist
      rw [if_neg (by rw [hc]; exact Bool.false_ne_true), g1, g2]
      ring

/-- The year loop preserves the waterfall invariant. -/
theorem wLoopAux_inv (p : WParams) (irrFn : List ℚ → ℚ) (lt : List WTier) :
    ∀ (pairs : List (ℚ × ℚ)) (year : ℕ) (st : WState), WInv p st →
    WInv p (wLoopAux p irrFn lt pairs year st) := by
  intro pairs
  induction pairs with
  | nil => intro year st h; exact h
  | cons pair rest ih =>
    intro year st h
    exact ih (year + 1) _ (wStep_inv p irrFn lt st year pair.1 pair.2 h)

/-- The initial waterfall state satisfies the invariant. -/
theorem initWState_inv (p : WParams) : WInv p initWState := by
  refine ⟨rfl, le_rfl, ?_, ?_, ?_⟩
  · show (0 : ℚ) = (if p.cashless then 0 else 0)
    by_cases hc : p.cashless
    · rw [if_pos hc]
    · rw [if_neg hc]
  · intro r hr
    exact absurd hr (List.not_mem_nil r)
  · intro _ r hr
    exact absurd hr (List.not_mem_nil r)

/-- The state after all years satisfies the invariant. -/
theorem waterfallLoop_inv (p : WParams) (tiers : Option (List WTier))
    (irrFn : List ℚ → ℚ) : WInv p (waterfallLoop p tiers irrFn) :=
  wLoopAux_inv p irrFn (localTiers tiers) (p.capital_calls.zip p.distributions) 1
    initWState (initWState_inv p)

/-! ### `updateLast` and `getLast?` lemmas -/

/-- `updateLast` preserves a predicate that `f` preserves. -/
theorem updateLast_forall (f : WRecord → WRecord) (Q : WRecord → Prop)
    (hf : ∀ r, Q r → Q (f r)) : ∀ l, (∀ r ∈ l, Q r) → ∀ r ∈ updateLast f l, Q r := by
  intro l
  induction l with
  | nil => intro _ r hr; exact absurd hr (List.not_mem_nil r)
  | cons a l ih =>
    cases l with
    | nil =>
      intro h r hr
      have : r ∈ [f a] := hr
      rw [List.mem_singleton] at this
      rw [this]
      exact hf a (h a (List.mem_cons_self a []))
    | cons b l2 =>
      intro h r hr
      have : r ∈ a :: updateLast f (b :: l2) := hr
      rcases List.mem_cons.mp this with hm | hm
      · rw [hm]; exact h a (List.mem_cons_self a (b :: l2))
      · exact ih (fun u hu => h u (List.mem_cons_of_mem a hu)) r hm

/-- `updateLast` preserves the length of the list. -/
theorem updateLast_length (f : WRecord → WRecord) :
    ∀ l, (updateLast f l).length = l.length := by
  intro l
  induction l with
  | nil => rfl
  | cons a l ih =>
    cases l with
    | nil => rfl
    | cons b l2 =>
      show (a :: updateLast f (b :: l2)).length = (a :: b :: l2).length
      simp [ih]

/-- `updateLast` maps the empty list exactly to the empty list. -/
theorem updateLast_eq_nil (f : WRecord → WRecord) :
    ∀ l, updateLast f l = [] ↔ l = [] := by
  intro l
  cases l with
  | nil => simp [updateLast]
  | cons a l => cases l <;> simp [updateLast]

/-- The last element of `updateLast f l` is `f` of the last element of `l`. -/
theorem updateLast_getLast? (f : WRecord → WRecord) : ∀ l, l ≠ [] →
    ∃ r0, l.getLast? = some r0 ∧ (updateLast f l).getLast? = some (f r0) := by
  intro l
  induction l with
  | nil => intro h; exact absurd rfl h
  | cons a l ih =>
    cases l with
    | nil => intro _; exact ⟨a, rfl, rfl⟩
    | cons b l2 =>
      intro _
      obtain ⟨r0, hr1, hr2⟩ := ih (by simp)
      refine ⟨r0, ?_, ?_⟩
      · rw [List.getLast?_cons_cons]; exact hr1
      · show (a :: updateLast f (b :: l2)).getLast? = some (f r0)
        cases hU : updateLast f (b :: l2) with
        | nil =>
          rw [hU] at hr2
          exact absurd hr2 (by simp)
        | cons u us =>
          rw [hU] at hr2
          rw [List.getLast?_cons_cons]
          exact hr2

/-- A `getLast?` hit is a member of the list. -/
theorem getLast?_mem : ∀ (l : List WRecord) (r : WRecord),
    l.getLast? = some r → r ∈ l := by
  intro l
  induction l with
  | nil => intro r hr; exact absurd hr (by simp)
  | cons a l ih =>
    cases l with
    | nil =>
      intro r hr
      have : a = r := by simpa using hr
      subst this
      exact List.mem_cons_self a []
    | cons b l2 =>
      intro r hr
      rw [List.getLast?_cons_cons] at hr
      exact List.mem_cons_of_mem a (ih r hr)

/-! ### `postCashless` lemmas -/

/-- The final cashless payout does not change the entitlement accumulator. -/
theorem postCashless_gp_entitlement (p : WParams) (irrFn : List ℚ → ℚ) (st : WState) :
    (postCashless p irrFn st).gp_entitlement = st.gp_entitlement := by
  unfold postCashless
  split <;> rfl

/-- The final cashless payout does not change the drawn-capital accumulator. -/
theorem postCashless_total_drawn (p : WParams) (irrFn : List ℚ → ℚ) (st : WState) :
    (postCashless p irrFn st).total_drawn = st.total_drawn := by
  unfold postCashless
  split <;> rfl

/-- After the final cashless payout the cumulative GP paid always equals the
accumulated entitlement. -/
theorem postCashless_gp_paid (p : WParams) (irrFn : List ℚ → ℚ) (st : WState)
    (h1 : st.gp_accrued = st.gp_entitlement) (h2 : 0 ≤ st.gp_entitlement)
    (h3 : st.gp_paid = if p.cashless then 0 else st.gp_entitlement) :
    (postCashless p irrFn st).gp_paid = st.gp_entitlement := by
  unfold postCashless
  split
  · rename_i hcond
    simp only [Bool.and_eq_true, decide_eq_true_eq] at hcond
    show st.gp_paid + st.gp_accrued = st.gp_entitlement
    rw [h1, h3, if_pos hcond.1]
    ring
  · rename_i hcond
    simp only [Bool.and_eq_true, decide_eq_true_eq, not_and] at hcond
    by_cases hc : p.cashless
    · have hacc0 : st.gp_accrued ≤ 0 := le_of_not_lt (hcond hc)
      rw [h1] at hacc0
      rw [h3, if_pos hc, le_antisymm hacc0 h2]
    · rw [h3, if_neg hc]

/-- The final cashless payout does not introduce clawback annotations. -/
theorem postCashless_clawback (p : WParams) (irrFn : List ℚ → ℚ) (st : WState)
    (h4 : ∀ r ∈ st.results, r.clawback = none) :
    ∀ r ∈ (postCashless p irrFn st).results, r.clawback = none := by
  unfold postCashless
  split
  · dsimp only
    refine updateLast_forall _ _ ?_ st.results h4
    intro r hq
    exact hq
  · exact h4

/-- The final cashless payout preserves per-record conservation of the
distributed amounts. -/
theorem postCashless_conserve (p : WParams) (irrFn : List ℚ → ℚ) (st : WState)
    (h : ∀ r ∈ st.results, r.lpDistributed + r.gpPaid = r.netDist) :
    ∀ r ∈ (postCashless p irrFn st).results,
      r.lpDistributed + r.gpPaid = r.netDist := by
  unfold postCashless
  split
  · dsimp only
    refine updateLast_forall _ _ ?_ st.results h
    intro r hq
    exact hq
  · exact h

/-- The final cashless payout preserves emptiness of the result list. -/
theorem postCashless_results_nil (p : WParams) (irrFn : List ℚ → ℚ) (st : WState) :
    (postCashless p irrFn st).results = [] ↔ st.results = [] := by
  unfold postCashless
  split
  · exact updateLast_eq_nil _ st.results
  · exact Iff.rfl

/-- The final cashless payout preserves the number of result records. -/
theorem postCashless_results_length (p : WParams) (irrFn : List ℚ → ℚ) (st : WState) :
    (postCashless p irrFn st).results.length = st.results.length := by
  unfold postCashless
  split
  · exact updateLast_length _ st.results
  · rfl

end LBOStack

namespace LBOStack

/-- Without cashless deferral the final payout step is the identity. -/
theorem postCashless_not_cashless (p : WParams) (irrFn : List ℚ → ℚ) (st : WState)
    (h : p.cashless = false) : postCashless p irrFn st = st := by
  unfold postCashless
  rw [h]
  simp

/-- Claim C4, amended: with cashless deferral disabled, every year of
`compute_waterfall_by_year` conserves value —
`LP Distributed + GP Paid = Net Dist` — and the clawback adjustment never
disturbs this (it only annotates the final record).  Under cashless
deferral the per-year equation fails (deferred carry moves to the final
year's `GP Final Pay`, see the counterexample). -/
theorem c4_theorem (p : WParams) (tiers : Option (List WTier)) (irrFn : List ℚ → ℚ)
    (h : p.cashless = false) :
    ∀ r ∈ compute_waterfall_by_year p tiers irrFn,
      r.lpDistributed + r.gpPaid = r.netDist := by
  obtain ⟨h1, h2, h3, h4, h5⟩ := waterfallLoop_inv p tiers irrFn
  have hcons := postCashless_conserve p irrFn (waterfallLoop p tiers irrFn) (h5 h)
  intro r hr
  simp only [compute_waterfall_by_year] at hr
  split at hr
  · split at hr
    · refine updateLast_forall _ _ ?_ _ hcons r hr
      intro u hq
      exact hq
    · exact hcons r hr
  · split at hr
    · refine updateLast_forall _ _ ?_ _ hcons r hr
      intro u hq
      exact hq
    · exact hcons r hr

/-- Witness for C4's amended theorem: conservation at year 1 of the no-carry
scenario (`LP Distributed 120 + GP Paid 0 = Net Dist 120`). -/
theorem c4_witness :
    ((compute_waterfall_by_year pNoCarry (some tNoCarry) irrZeroQ).getD 0
        default).lpDistributed
      + ((compute_waterfall_by_year pNoCarry (some tNoCarry) irrZeroQ).getD 0
        default).gpPaid
      = ((compute_waterfall_by_year pNoCarry (some tNoCarry) irrZeroQ).getD 0
        default).netDist :=
  c4_theorem pNoCarry (some tNoCarry) irrZeroQ rfl _
    (by norm_num [pNoCarry, tNoCarry, compute_waterfall_by_year, postCashless,
      waterfallLoop, wLoopAux, wStep, wAlloc, wMakeupOf, wMakeup, wNetDist, wFee,
      tierLoop, tierStep, localTiers, defaultTier, initWState, updateLast, irrZeroQ,
      tierLE, List.insertionSort, List.orderedInsert, List.getD, List.getLastD])

/-- Claim C5, amended: the clawback trigger compares cumulative GP paid with
the internally accumulated entitlement, which it always equals (first three
conjuncts), so a clawback is recorded exactly when no carry was ever
allocated and the final entitlement `(Σ dists - Σ drawn) * final carry` is
negative (the fund lost money); then, with `clawback_interest = "simple"`,
the recorded amount is `(-final entitlement) * (1 + final rate * years)`.
In particular GP carry paid in excess of `final profit * final carry` is
never clawed back once any carry was allocated. -/
theorem c5_theorem (p : WParams) (tiers : Option (List WTier)) (irrFn : List ℚ → ℚ) :
    (waterfallLoop p tiers irrFn).gp_accrued
      = (waterfallLoop p tiers irrFn).gp_entitlement ∧
    0 ≤ (waterfallLoop p tiers irrFn).gp_entitlement ∧
    (postCashless p irrFn (waterfallLoop p tiers irrFn)).gp_paid
      = (waterfallLoop p tiers irrFn).gp_entitlement ∧
    ((∃ r, (compute_waterfall_by_year p tiers irrFn).getLast? = some r ∧
        r.clawback ≠ none)
      ↔ ((waterfallLoop p tiers irrFn).results ≠ [] ∧
        (waterfallLoop p tiers irrFn).gp_entitlement = 0 ∧
        (p.distributions.sum - (waterfallLoop p tiers irrFn).total_drawn)
          * ((localTiers tiers).getLastD defaultTier).carry < 0)) ∧
    (p.clawback_interest = ("simple") →
      (waterfallLoop p tiers irrFn).results ≠ [] →
      (waterfallLoop p tiers irrFn).gp_entitlement = 0 →
      (p.distributions.sum - (waterfallLoop p tiers irrFn).total_drawn)
        * ((localTiers tiers).getLastD defaultTier).carry < 0 →
      ∃ r, (compute_waterfall_by_year p tiers irrFn).getLast? = some r ∧
        r.clawback = some
          (-((p.distributions.sum - (waterfallLoop p tiers irrFn).total_drawn)
              * ((localTiers tiers).getLastD defaultTier).carry)
            * (1 + ((localTiers tiers).getLastD defaultTier).rate
              * ((waterfallLoop p tiers irrFn).results.length : ℚ)))) := by
  obtain ⟨h1, h2, h3, h4, h5⟩ := waterfallLoop_inv p tiers irrFn
  have hpaid := postCashless_gp_paid p irrFn (waterfallLoop p tiers irrFn) h1 h2 h3
  have hent1 := postCashless_gp_entitlement p irrFn (waterfallLoop p tiers irrFn)
  have hdrawn1 := postCashless_total_drawn p irrFn (waterfallLoop p tiers irrFn)
  have hclaw1 := postCashless_clawback p irrFn (waterfallLoop p tiers irrFn) h4
  have hnil1 := postCashless_results_nil p irrFn (waterfallLoop p tiers irrFn)
  have hlen1 := postCashless_results_length p irrFn (waterfallLoop p tiers irrFn)
  refine ⟨h1, h2, hpaid, ?_, ?_⟩
  · simp only [compute_waterfall_by_year]
    rw [hpaid, hent1, hdrawn1]
    by_cases hent : 0 < (waterfallLoop p tiers irrFn).gp_entitlement
    · rw [if_pos hent, sub_self, if_neg (lt_irrefl (0 : ℚ))]
      constructor
      · rintro ⟨r, hr, hc⟩
        exact absurd (hclaw1 r (getLast?_mem _ r hr)) hc
      · rintro ⟨_, hent0, _⟩
        rw [hent0] at hent
        exact absurd hent (lt_irrefl 0)
    · have hent0 : (waterfallLoop p tiers irrFn).gp_entitlement = 0 :=
        le_antisymm (not_lt.mp hent) h2
      rw [if_neg hent, hent0, zero_sub]
      by_cases hfe : (p.distributions.sum - (waterfallLoop p tiers irrFn).total_drawn)
          * ((localTiers tiers).getLastD defaultTier).carry < 0
      · have hexc : 0 < max 0
            (-((p.distributions.sum - (waterfallLoop p tiers irrFn).total_drawn)
              * ((localTiers tiers).getLastD defaultTier).carry)) :=
          lt_of_lt_of_le (by linarith) (le_max_right _ _)
        rw [if_pos hexc]
        by_cases hn : (waterfallLoop p tiers irrFn).results = []
        · rw [hnil1.mpr hn]
          constructor
          · rintro ⟨r, hr, _⟩
            simp [updateLast] at hr
          · rintro ⟨hne, _, _⟩
            exact absurd hn hne
        · have hne1 : (postCashless p irrFn (waterfallLoop p tiers irrFn)).results
              ≠ [] := fun hh => hn (hnil1.mp hh)
          obtain ⟨r0, hr0, hr0x⟩ := updateLast_getLast? _ _ hne1
          constructor
          · intro _
            exact ⟨hn, rfl, hfe⟩
          · intro _
            refine ⟨_, hr0x, ?_⟩
            dsimp only
            exact Option.some_ne_none _
      · have hexc : ¬ 0 < max 0
            (-((p.distributions.sum - (waterfallLoop p tiers irrFn).total_drawn)
              * ((localTiers tiers).getLastD defaultTier).carry)) := by
          rw [max_eq_left (by linarith)]
          exact lt_irrefl 0
        rw [if_neg hexc]
        constructor
        · rintro ⟨r, hr, hc⟩
          exact absurd (hclaw1 r (getLast?_mem _ r hr)) hc
        · rintro ⟨_, _, hfe2⟩
          exact absurd hfe2 hfe
  · intro hs hn hent0 hfe
    simp only [compute_waterfall_by_year]
    rw [hpaid, hent1, hdrawn1]
    have hneg : ¬ 0 < (waterfallLoop p tiers irrFn).gp_entitlement := by
      rw [hent0]
      exact lt_irrefl 0
    rw [if_neg hneg, hent0, zero_sub]
    have hexc : 0 < max 0
        (-((p.distributions.sum - (waterfallLoop p tiers irrFn).total_drawn)
          * ((localTiers tiers).getLastD defaultTier).carry)) :=
      lt_of_lt_of_le (by linarith) (le_max_right _ _)
    rw [if_pos hexc]
    have hne1 : (postCashless p irrFn (waterfallLoop p tiers irrFn)).results ≠ [] :=
      fun hh => hn (hnil1.mp hh)
    obtain ⟨r0, hr0, hr0x⟩ := updateLast_getLast? _ _ hne1
    refine ⟨_, hr0x, ?_⟩
    dsimp only
    rw [if_pos hs, max_eq_right (by linarith), hlen1]

/-- Witness for C5's amended theorem at the loss-making scenario: clawback
`(2/5) * (1 + 1/10) = 11/25` is recorded on the single year. -/
theorem c5_witness :
    ((compute_waterfall_by_year pC5loss (some tC5loss) irrZeroQ).getLastD
      default).clawback = some (11/25) := by
  obtain ⟨r, hr, hc⟩ := (c5_theorem pC5loss (some tC5loss) irrZeroQ).2.2.2.2 rfl
    (by norm_num [pC5loss, tC5loss, waterfallLoop, wLoopAux, wStep, wAlloc, wMakeupOf,
      wMakeup, wNetDist, wFee, tierLoop, tierStep, localTiers, defaultTier, initWState,
      irrZeroQ, tierLE, List.insertionSort, List.orderedInsert])
    (by norm_num [pC5loss, tC5loss, waterfallLoop, wLoopAux, wStep, wAlloc, wMakeupOf,
      wMakeup, wNetDist, wFee, tierLoop, tierStep, localTiers, defaultTier, initWState,
      irrZeroQ, tierLE, List.insertionSort, List.orderedInsert])
    (by norm_num [pC5loss, tC5loss, waterfallLoop, wLoopAux, wStep, wAlloc, wMakeupOf,
      wMakeup, wNetDist, wFee, tierLoop, tierStep, localTiers, defaultTier, initWState,
      irrZeroQ, tierLE, List.insertionSort, List.orderedInsert])
  rw [List.getLastD_eq_getLast?, hr, Option.getD_some, hc]
  norm_num [pC5loss, tC5loss, waterfallLoop, wLoopAux, wStep, wAlloc, wMakeupOf,
    wMakeup, wNetDist, wFee, tierLoop, tierStep, localTiers, defaultTier, initWState,
    irrZeroQ, tierLE, List.insertionSort, List.orderedInsert]

/-- Two sorted-by-rate tier lists that are permutations of each other with
pairwise distinct rates are equal. -/
theorem sorted_tierLE_nodup_eq : ∀ (l1 l2 : List WTier), l1.Perm l2 →
    l1.Sorted tierLE → l2.Sorted tierLE → (l1.map WTier.rate).Nodup → l1 = l2 := by
  intro l1
  induction l1 with
  | nil =>
    intro l2 hp _ _ _
    exact (List.Perm.eq_nil hp.symm).symm
  | cons a l1 ih =>
    intro l2 hp hs1 hs2 hnd
    cases l2 with
    | nil => exact absurd (List.Perm.eq_nil hp) (by simp)
    | cons b l2 =>
      have hab : a = b := by
        have hbmem : b ∈ a :: l1 := hp.symm.subset (List.mem_cons_self b l2)
        rcases List.mem_cons.mp hbmem with he | hb
        · exact he.symm
        · have hamem : a ∈ b :: l2 := hp.subset (List.mem_cons_self a l1)
          rcases List.mem_cons.mp hamem with he | ha
          · exact he
          · exfalso
            have hr1 : a.rate ≤ b.rate := List.rel_of_sorted_cons hs1 b hb
            have hr2 : b.rate ≤ a.rate := List.rel_of_sorted_cons hs2 a ha
            have hmem2 : a.rate ∈ l1.map WTier.rate := by
              rw [le_antisymm hr1 hr2]
              exact List.mem_map_of_mem WTier.rate hb
            rw [List.map_cons] at hnd
            exact (List.nodup_cons.mp hnd).1 hmem2
      subst hab
      have hnd2 : (l1.map WTier.rate).Nodup := by
        rw [List.map_cons] at hnd
        exact (List.nodup_cons.mp hnd).2
      rw [ih l2 (List.Perm.cons_inv hp) (List.Sorted.of_cons hs1)
        (List.Sorted.of_cons hs2) hnd2]

/-- Claim C9: `compute_waterfall_by_year` processes the tiers in ascending
rate order regardless of the order of the supplied list — two tier lists
that are permutations of each other with pairwise distinct rates give
identical per-year records on otherwise identical inputs. -/
theorem c9_theorem (p : WParams) (tiers1 tiers2 : List WTier)
    (irrFn : List ℚ → ℚ) (hperm : tiers1.Perm tiers2)
    (hnd : (tiers1.map WTier.rate).Nodup) :
    compute_waterfall_by_year p (some tiers1) irrFn
      = compute_waterfall_by_year p (some tiers2) irrFn := by
  have hlt : localTiers (some tiers1) = localTiers (some tiers2) := by
    unfold localTiers
    cases tiers1 with
    | nil =>
      rw [List.Perm.eq_nil hperm.symm]
    | cons x xs =>
      cases tiers2 with
      | nil => exact absurd (List.Perm.eq_nil hperm) (by simp)
      | cons y ys =>
        simp only [List.isEmpty_cons, Bool.false_eq_true, if_false]
        apply sorted_tierLE_nodup_eq
        · exact (List.perm_insertionSort tierLE (x :: xs)).trans
            (hperm.trans (List.perm_insertionSort tierLE (y :: ys)).symm)
        · exact List.sorted_insertionSort tierLE (x :: xs)
        · exact List.sorted_insertionSort tierLE (y :: ys)
        · exact (((List.perm_insertionSort tierLE (x :: xs)).map
            WTier.rate).nodup_iff).mpr hnd
  simp only [compute_waterfall_by_year, waterfallLoop]
  rw [hlt]

/-- Witness for C9: swapping the two distinct-rate tiers of a concrete run
leaves the output unchanged. -/
theorem c9_witness :
    compute_waterfall_by_year pNoCarry (some [tierLow, tierHigh]) irrZeroQ
      = compute_waterfall_by_year pNoCarry (some [tierHigh, tierLow]) irrZeroQ :=
  c9_theorem pNoCarry [tierLow, tierHigh] [tierHigh, tierLow] irrZeroQ
    (List.Perm.swap tierHigh tierLow [])
    (by norm_num [tierLow, tierHigh])

end LBOStack
